import Mathlib

/-!
Verification of the QuickBooks invoice "Print / Pick Slip" userscript
(repository abksupplies/quickbook_button).

The development shallowly embeds the data-flow core of the scripts:

* `src/add_button_new.js` (v2.4, the current script): `waitForData`,
  `extractData` (with its inner `getSKU` and `getQuantity`),
  `generateProductTable` and `generatePrintLayout`.
* `src/unnamed/part_000` (v2.0) shares the same logic for these
  functions; the v2.4 embedding covers both.
* `src/Add_button.js` (v1.91, the legacy script): the inline extraction
  and rendering inside its `generateProductTable`, embedded as
  `generateProductTableLegacy`.

DOM access is modelled by records holding the results of the exact
`querySelector` calls the scripts perform: an `Option String` is the
text/value of the queried element (`none` = element absent).  JavaScript
string truthiness (`s || d`) is `jsOr`, `parseInt(text, 10)` is
`parseIntJS` (returning `none` for `NaN`), and the HTML template
literals are transcribed verbatim as string chunks.
-/

/-- JavaScript `o || d` on an optional string: `undefined` and the empty
string are falsy and fall back to the default. -/
def jsOr : Option String → String → String
  | some s, d => if s = "" then d else s
  | none, d => d

/-- JavaScript `String.prototype.trim`: strip leading and trailing
whitespace.  (Implemented over the character list so that it reduces
inside the proof checker; the built-in `String.trim` does not.) -/
def jsTrim (s : String) : String :=
  String.mk
    (((s.data.dropWhile (fun c => c.isWhitespace)).reverse.dropWhile
      (fun c => c.isWhitespace)).reverse)

/-- The maximal leading run of ASCII digits of a character list. -/
def leadingDigits (cs : List Char) : List Char :=
  cs.takeWhile (fun c => c.isDigit)

/-- Value of a digit string, most significant digit first. -/
def digitsVal (ds : List Char) : Nat :=
  ds.foldl (fun a c => a * 10 + (c.toNat - 48)) 0

/-- The integer value of the leading digit run, `none` if there is no
leading digit. -/
def leadingNat (cs : List Char) : Option Nat :=
  if leadingDigits cs = [] then none else some (digitsVal (leadingDigits cs))

/-- Core of `parseInt` on an already whitespace-stripped character list:
an optional sign followed by the longest digit prefix; everything after
the digit prefix is ignored. -/
def parseIntChars (cs : List Char) : Option Int :=
  if cs.head? = some '-' then (leadingNat cs.tail).map (fun n => -(n : Int))
  else if cs.head? = some '+' then (leadingNat cs.tail).map (fun n => (n : Int))
  else (leadingNat cs).map (fun n => (n : Int))

/-- JavaScript `parseInt(s, 10)`: skip leading whitespace, read an
optional sign and then the longest digit prefix.  `none` models `NaN`
(no digit found). -/
def parseIntJS (s : String) : Option Int :=
  parseIntChars (s.data.dropWhile (fun c => c.isWhitespace))

/-- Decidable check that `needle` occurs at the start of `hay`. -/
def listPrefixEq : List Char → List Char → Bool
  | [], _ => true
  | _ :: _, [] => false
  | a :: as, b :: bs => a == b && listPrefixEq as bs

/-- Decidable substring occurrence on character lists. -/
def listContainsSub (needle : List Char) : List Char → Bool
  | [] => needle.isEmpty
  | c :: rest => listPrefixEq needle (c :: rest) || listContainsSub needle rest

/-- Decidable substring occurrence on strings, used to evaluate rendered
documents at concrete inputs. -/
def containsSubstring (hay needle : String) : Bool :=
  listContainsSub needle.data hay.data

/-- One field of the custom form (`.custom-form-field`): the text of its
`label` child and the `value` of its `input` child, each `none` when the
child element is absent. -/
structure FormField where
  labelText : Option String
  inputValue : Option String
deriving DecidableEq, Repr

/-- One product row (`.dgrid-row`).  `skuCells` are the query results of
the four SKU selectors of `getSKU` in order (`.field-sku`,
`[data-automation-id="sku"]`, `.sku-field`, `.itemSKU`), and
`quantityCells` of the three quantity selectors of `getQuantity`
(`.field-quantity-inner`, `[data-automation-id="quantity"]`,
`.quantity-field`).  The legacy script reads only the first selector of
each list. -/
structure RowNode where
  itemColumn : Option String
  fieldDescriptionDiv : Option String
  skuCells : List (Option String)
  quantityCells : List (Option String)
deriving DecidableEq, Repr

/-- The invoice overlay container (`.trowser-view .body` in v2.4, the
whole document in the older scripts) as seen through the exact queries
the scripts perform. -/
structure Container where
  billingAddressValue : Option String
  shippingAddressValue : Option String
  referenceNumberText : Option String
  invoiceDateValue : Option String
  customForm : Option (List FormField)
  dgridRows : List RowNode
deriving DecidableEq, Repr

/-- One extracted product row. -/
structure LineItem where
  productName : String
  description : String
  sku : String
  quantity : Int
deriving DecidableEq, Repr

/-- The record `extractData` returns. -/
structure ExtractionRecord where
  billingAddress : String
  shippingAddress : String
  invoiceNumber : String
  invoiceDate : String
  orderNumber : String
  jobName : String
  phoneNumber : String
  rows : List LineItem
deriving DecidableEq, Repr

/-- `element?.textContent.trim() || ""`. -/
def trimOr : Option String → String
  | some s => jsTrim s
  | none => ""

/-- Loop of `getSKU` (add_button_new.js:219): first selector whose
element exists and has non-empty trimmed text wins; otherwise `""`. -/
def firstNonEmptyTrimmed : List (Option String) → String
  | [] => ""
  | none :: rest => firstNonEmptyTrimmed rest
  | some t :: rest => if jsTrim t ≠ "" then jsTrim t else firstNonEmptyTrimmed rest

/-- `getSKU(row)` of add_button_new.js:219. -/
def getSKU (row : RowNode) : String :=
  firstNonEmptyTrimmed row.skuCells

/-- Loop of `getQuantity` (add_button_new.js:237): first selector whose
element exists and whose trimmed text parses with `parseInt` wins;
otherwise `0`. -/
def firstParsedInt : List (Option String) → Int
  | [] => 0
  | none :: rest => firstParsedInt rest
  | some t :: rest =>
    match parseIntJS (jsTrim t) with
    | some q => q
    | none => firstParsedInt rest

/-- `getQuantity(row)` of add_button_new.js:237. -/
def getQuantity (row : RowNode) : Int :=
  firstParsedInt row.quantityCells

/-- The line item built from one `.dgrid-row`
(add_button_new.js:281-288). -/
def lineItemOfRow (row : RowNode) : LineItem :=
  ⟨trimOr row.itemColumn, trimOr row.fieldDescriptionDiv, getSKU row, getQuantity row⟩

/-- The row filter of add_button_new.js:291:
`if (productName || sku || description)`. -/
def hasMeaningfulData (r : LineItem) : Bool :=
  r.productName ≠ "" || r.sku ≠ "" || r.description ≠ ""

/-- `formFields.find(f => f.querySelector('label')?.textContent.trim()
=== LABEL)?.querySelector('input')?.value || ''`
(add_button_new.js:268-270 and Add_button.js:152-154). -/
def findFormValue (fields : List FormField) (label : String) : String :=
  match fields.find? (fun f =>
      match f.labelText with
      | some t => jsTrim t = label
      | none => false) with
  | some f => jsOr f.inputValue ""
  | none => ""

/-- `extractData()` of add_button_new.js:201-303.  The argument is
`none` when the overlay container `.trowser-view .body` is absent, in
which case the early-return record of lines 206-215 is produced. -/
def extractData : Option Container → ExtractionRecord
  | none => ⟨"N/A", "N/A", "N/A", "N/A", "", "", "", []⟩
  | some c =>
    ⟨jsOr c.billingAddressValue "N/A",
     jsOr c.shippingAddressValue "N/A",
     jsOr (c.referenceNumberText.map (fun t => jsTrim t)) "N/A",
     jsOr c.invoiceDateValue "N/A",
     (match c.customForm with
      | some fields => findFormValue fields "ORDER NUMBER"
      | none => ""),
     (match c.customForm with
      | some fields => findFormValue fields "JOB NAME"
      | none => ""),
     (match c.customForm with
      | some fields => findFormValue fields "Phone"
      | none => ""),
     c.dgridRows.filterMap (fun row =>
       let item := lineItemOfRow row
       if hasMeaningfulData item then some item else none)⟩

/-- One value of the pick-slip SKU map of add_button_new.js:323-326. -/
structure SkuEntry where
  productName : String
  quantity : Int
deriving DecidableEq, Repr

/-- `skuMap.has(s)` on the insertion-ordered association list that
models the JavaScript `Map`. -/
def hasKey (m : List (String × SkuEntry)) (s : String) : Bool :=
  (m.find? (fun e => e.1 = s)).isSome

/-- `skuMap.get(s).quantity += q`: the entry object stored under `s` is
mutated in place, which preserves the insertion order of the map. -/
def addQty (m : List (String × SkuEntry)) (s : String) (q : Int) :
    List (String × SkuEntry) :=
  m.map (fun e => if e.1 = s then (e.1, ⟨e.2.productName, e.2.quantity + q⟩) else e)

/-- One iteration of the pick-slip branch of the row loop
(add_button_new.js:317-327): `if (row.sku && skuMap.has(row.sku))`
accumulate, `else if (row.sku)` insert, otherwise do nothing. -/
def skuMapStep (m : List (String × SkuEntry)) (row : LineItem) :
    List (String × SkuEntry) :=
  if row.sku ≠ "" ∧ hasKey m row.sku then addQty m row.sku row.quantity
  else if row.sku ≠ "" then m ++ [(row.sku, ⟨row.productName, row.quantity⟩)]
  else m

/-- The SKU map built by the pick-slip branch over all extracted rows.
JavaScript `Map` iteration follows insertion order, which the
association list preserves. -/
def skuMapOf (rows : List LineItem) : List (String × SkuEntry) :=
  rows.foldl skuMapStep []

/-- Quantity recorded in the SKU map under key `s` (0 when absent). -/
def entryQty (m : List (String × SkuEntry)) (s : String) : Int :=
  match m.find? (fun e => e.1 = s) with
  | some e => e.2.quantity
  | none => 0
def detailRowPart0 : String :=
"
                        <tr style=\"margin-bottom: 5px; height: 30px;\">
                            <td>"

def detailRowPart1 : String :=
"</td>
                            <td>"

def detailRowPart2 : String :=
"</td>
                            <td style=\"text-align:right;\">"

def detailRowPart3 : String :=
"</td>
                        </tr>
                    "

def combinedRowPart0 : String :=
"
                    <tr style=\"margin-bottom: 5px; height: 30px;\">
                        <td>"

def combinedRowPart1 : String :=
"</td>
                        <td>"

def combinedRowPart2 : String :=
"</td>
                        <td style=\"text-align:right;\">"

def combinedRowPart3 : String :=
"</td>
                    </tr>
                "

def tableWrapPart0 : String :=
"
                <table class=\"product-table\">
                    <thead style=\"background:lightgrey; margin-bottom:5px;\">
                        <tr>
                            <th>Product Name</th>
                            <th>SKU</th>
                            <th>Quantity</th>
                        </tr>
                    </thead>
                    <tbody>
                        "

def tableWrapPart1 : String :=
"
                    </tbody>
                </table>
            "

/-- `${row.quantity || ''}` in the detail row template
(add_button_new.js:337): a zero quantity is falsy and renders as the
empty string. -/
def qtyCellStr (q : Int) : String :=
  if q = 0 then "" else toString q

/-- `row.productName || (row.sku ? '' : row.description)`
(add_button_new.js:330 and Add_button.js:176). -/
def displayName (r : LineItem) : String :=
  if r.productName ≠ "" then r.productName
  else if r.sku ≠ "" then "" else r.description

/-- The detail (print mode) row template literal
(add_button_new.js:333-339, identical text in Add_button.js:179-185). -/
def detailRowTemplate (name sku qty : String) : String :=
  detailRowPart0 ++ name ++ detailRowPart1 ++ sku ++ detailRowPart2 ++ qty ++ detailRowPart3

/-- One iteration of the print branch of the row loop
(add_button_new.js:329-340): the row is emitted only when
`displayName || row.sku` is truthy. -/
def detailRowHtml (r : LineItem) : String :=
  if displayName r ≠ "" || r.sku ≠ "" then
    detailRowTemplate (displayName r) r.sku (qtyCellStr r.quantity)
  else ""

/-- `productTable` accumulated over the row loop in print mode. -/
def detailRowsHtml (rows : List LineItem) : String :=
  String.join (rows.map detailRowHtml)

/-- The pick-slip row template literal (add_button_new.js:347-353,
identical text in Add_button.js:193-199). -/
def combinedRowTemplate (name sku qty : String) : String :=
  combinedRowPart0 ++ name ++ combinedRowPart1 ++ sku ++ combinedRowPart2 ++ qty ++ combinedRowPart3

/-- `skuMap.forEach` emission of add_button_new.js:346-354. -/
def combinedRowsHtml (m : List (String × SkuEntry)) : String :=
  String.join (m.map (fun e => combinedRowTemplate e.2.productName e.1 (toString e.2.quantity)))

/-- The concatenated table body produced by the row loop for the chosen
mode. -/
def tableBody (rows : List LineItem) (combineQuantities : Bool) : String :=
  if combineQuantities then combinedRowsHtml (skuMapOf rows) else detailRowsHtml rows

/-- The `<table class="product-table">` wrapper template
(add_button_new.js:358-371, identical text in Add_button.js:204-217). -/
def tableWrap (body : String) : String :=
  tableWrapPart0 ++ body ++ tableWrapPart1

/-- `if (productTable) { wrap } else { placeholder }`
(add_button_new.js:357-374 and Add_button.js:203-220). -/
def productTableHtml (rows : List LineItem) (combineQuantities : Bool) : String :=
  let body := tableBody rows combineQuantities
  if body ≠ "" then tableWrap body else "<p>No valid products found.</p>"
def layoutA : String :=
"
<!DOCTYPE html>
<html>
<head>
    <meta charset=\"UTF-8\">
    <title>Invoice "

def layoutBa : String :=
"</title>
    <style>
        * \x7b box-sizing: border-box; \x7d
        
        body \x7b
            font-family: Arial, sans-serif;
            line-height: 1.6;
            margin: 0;
            padding: 0;
        \x7d

        .maincontainer \x7b
            width: 100%;
            padding: 20px;
            margin: 0 auto;
        \x7d

        .TMheader \x7b
            width: 100%;
            display: flex;
            justify-content: space-between;
            margin-bottom: 10px;
        \x7d

        .TMheader-left \x7b
            width: 70%;
            display: flex;
            font-size: 13px;
            gap: 20px;
        \x7d

        .TMheader-left img \x7b
            max-width: 150px;
            height: auto;
        \x7d

        .TMheader-right \x7b
            width: 30%;
            font-size: 10px;
        \x7d

        .deliveryNote \x7b
            display: flex;
            justify-content: space-between;
            margin-bottom: 10px;
            font-size: 13px;
            width: 100%;
        \x7d

        .deliveryNote p \x7b
            margin-bottom: 0;
        \x7d

        .deliveryNote > div \x7b
            width: 33.3%;
            white-space: pre-line;
        \x7d

        .orderProducts \x7b
            margin-top: 20px;
            border-top: 1px solid #000;
        \x7d

        .product-table \x7b
            text-align: left;
            width: 100%;
            margin-top: 20px;
            font-size: 14px;
            border-collapse: collapse;
        \x7d
        
        .product-table th \x7b
            padding: 8px;
            text-align: left;
   "

def layoutBb : String :=
"     \x7d
        
        .product-table td \x7b
            padding: 8px;
        \x7d
        
        .product-table tbody tr td:last-child \x7b
            text-align: right;
        \x7d

        .orderNote \x7b
            display: flex;
            justify-content: space-between;
            font-size: 14px;
            margin: 20px 0;
        \x7d

        .input-group \x7b
            display: flex;
            justify-content: space-between;
            margin-top: 20px;
            font-size: 12px;
        \x7d

        hr \x7b
            border: none;
            border-top: 1px solid #ccc;
            margin: 15px 0;
        \x7d

        @media print \x7b
            body \x7b margin: 0; \x7d
            .maincontainer \x7b padding: 15px; \x7d
        \x7d
    </style>
</head>
<body>
    <div class=\"maincontainer\">
        <div class=\"TMheader\">
            <div class=\"TMheader-left\">
                <div class=\"imageLogo\">
                    <img src=\"https://c17.qbo.intuit.com/qbo17/ext/Image/show/249862794341519/1?14857441280001\" alt=\"Logo\" />
                </div>
                <div class=\"CompanyInfo\">
                    <div><b>Adelaide Bathroom & Kitchen Supplies</b></div>
                    <div>2/831 Lower North East Rd, Dernancourt</div>
                    <div>(08) 7006 5181</div>
                    <div>Sales@abksupplies.com.au</div>
                    <div>ABN 13 695 032 804</div>
                </div>
            </div>
            <div class=\"TMheader-right\">
                <div class=\"ContactService\">
                    <div><b>Received In Good Order & Condition</b></div>
                    <div><textarea class=\"form-control\" ro"

def layoutBc : String :=
"ws=\"1\" style=\"height:30px;width:200px;\" placeholder=\"Name:\"></textarea></div>
                    <div><textarea class=\"form-control\" rows=\"1\" style=\"height:40px;width:200px;\" placeholder=\"Sign:\"></textarea></div>
                    <div><textarea class=\"form-control\" rows=\"1\" style=\"height:30px;width:200px;\" placeholder=\"Date: __ / __ / ____\"></textarea></div>
                </div>
            </div>
        </div>
        
        <h3 style=\"margin-bottom:10px\">Delivery Note</h3>
        
        <div class=\"deliveryNote\">
            <div class=\"deliveryNote-1\">
                <b>INVOICE TO</b>
                <p class=\"InvoiceInfo\">"

/-- The second static chunk of the print layout.  Its text is split
into the three sub-chunks above only so that later character-level
checks stay within the recursion budget of the checker; the
concatenation below is verbatim the source text. -/
def layoutB : String := layoutBa ++ layoutBb ++ layoutBc

def layoutC : String :=
"</p>
            </div>
            <div class=\"deliveryNote-2\">
                <b>SHIP TO</b>
                <p class=\"ShipInfo\">"

def layoutD : String :=
"</p>
            </div>
            <div class=\"deliveryNote-3\">
                <b>INVOICE NO.:</b>
                <span class=\"InvoiceNumber\">"

def layoutE : String :=
"</span><br/>
                <b>DATE:</b>
                <span class=\"InvoiceDate\">"

def layoutF : String :=
"</span>
            </div>
        </div>
        
        <hr>
        
        <div class=\"orderNote\">
            <div class=\"orderNote-1\"><b>ORDER NUMBER</b><br/>"

def layoutG : String :=
"</div>
            <div class=\"orderNote-2\"><b>JOB NAME</b><br/>"

def layoutH : String :=
"</div>
            <div class=\"orderNote-3\"><b>PHONE</b><br/>"

def layoutI : String :=
"</div>
        </div>
        
        <div class=\"orderProducts\">
            "

def layoutJ : String :=
"
        </div>
        
        <hr/>
        
        <div class=\"input-group\">
            <span>Picked By: _______________</span>
            <span>Checked By: _______________</span>
        </div>
    </div>
</body>
</html>
        "

/-- `generatePrintLayout(data, productTable)` of
add_button_new.js:386-568: the template literal with every interpolated
field spliced in verbatim, in source order (title invoice number,
billing address, shipping address, invoice number, invoice date, order
number, job name, phone number, product table). -/
def generatePrintLayout (data : ExtractionRecord) (productTable : String) : String :=
  layoutA ++ data.invoiceNumber ++ layoutB ++ data.billingAddress ++ layoutC ++
    data.shippingAddress ++ layoutD ++ data.invoiceNumber ++ layoutE ++
    data.invoiceDate ++ layoutF ++ data.orderNumber ++ layoutG ++ data.jobName ++
    layoutH ++ data.phoneNumber ++ layoutI ++ productTable ++ layoutJ

/-- Outcome of `generateProductTable`: either the early return after the
`alert` (no window is opened), or the document written into the new
window. -/
inductive GPTResult where
  | aborted : String → GPTResult
  | opened : String → GPTResult
deriving DecidableEq, Repr

/-- `generateProductTable(combineQuantities)` of
add_button_new.js:305-384. -/
def generateProductTable (container : Option Container) (combineQuantities : Bool) :
    GPTResult :=
  let data := extractData container
  if data.rows.length = 0 then
    GPTResult.aborted "No product data found. Please ensure the invoice is fully loaded."
  else
    GPTResult.opened (generatePrintLayout data (productTableHtml data.rows combineQuantities))

/-- A JavaScript value that is either a number or a string: the legacy
script stores `parseInt(quantityText, 10) || ''` in its line items, so a
quantity is a number for a parsed non-zero value and the string `''`
otherwise. -/
inductive JsVal where
  | num : Int → JsVal
  | str : String → JsVal
deriving DecidableEq, Repr

/-- JavaScript `+` on such values: numeric addition on two numbers,
string concatenation as soon as one operand is a string. -/
def jsAdd : JsVal → JsVal → JsVal
  | JsVal.num a, JsVal.num b => JsVal.num (a + b)
  | JsVal.num a, JsVal.str s => JsVal.str (toString a ++ s)
  | JsVal.str s, JsVal.num b => JsVal.str (s ++ toString b)
  | JsVal.str a, JsVal.str b => JsVal.str (a ++ b)

/-- Template interpolation `${v}` of such a value. -/
def jsValStr : JsVal → String
  | JsVal.num q => toString q
  | JsVal.str s => s

/-- `parseInt(quantityText, 10) || ''` (Add_button.js:164): `NaN` and
`0` are falsy and collapse to the empty string. -/
def legacyQuantityVal (text : String) : JsVal :=
  match parseIntJS text with
  | some q => if q = 0 then JsVal.str "" else JsVal.num q
  | none => JsVal.str ""

/-- One value of the legacy SKU map (Add_button.js:172). -/
structure LegacyEntry where
  productName : String
  quantity : JsVal
deriving DecidableEq, Repr

/-- `skuMap.has(s)` for the legacy map. -/
def legacyHasKey (m : List (String × LegacyEntry)) (s : String) : Bool :=
  (m.find? (fun e => e.1 = s)).isSome

/-- `skuMap.get(s).quantity += quantity` for the legacy map. -/
def legacyAddQty (m : List (String × LegacyEntry)) (s : String) (q : JsVal) :
    List (String × LegacyEntry) :=
  m.map (fun e => if e.1 = s then (e.1, ⟨e.2.productName, jsAdd e.2.quantity q⟩) else e)

/-- One iteration of the pick-slip branch of the legacy row loop
(Add_button.js:166-173).  Unlike v2.4 there is no `row.sku` guard: rows
without a SKU are all merged under the empty-string key. -/
def legacySkuMapStep (m : List (String × LegacyEntry)) (sku productName : String)
    (quantity : JsVal) : List (String × LegacyEntry) :=
  if legacyHasKey m sku then legacyAddQty m sku quantity
  else m ++ [(sku, ⟨productName, quantity⟩)]

/-- One iteration of the legacy row loop (Add_button.js:157-188),
threading the accumulated detail HTML and the SKU map. -/
def legacyRowStep (combineQuantities : Bool)
    (acc : String × List (String × LegacyEntry)) (row : RowNode) :
    String × List (String × LegacyEntry) :=
  let productName := trimOr row.itemColumn
  let description := trimOr row.fieldDescriptionDiv
  let sku := trimOr (row.skuCells.headD none)
  let quantityText := trimOr (row.quantityCells.headD none)
  let quantity := legacyQuantityVal quantityText
  if combineQuantities then
    (acc.1, legacySkuMapStep acc.2 sku productName quantity)
  else
    let dn := if productName ≠ "" then productName
      else if sku ≠ "" then "" else description
    if dn ≠ "" || sku ≠ "" then
      (acc.1 ++ detailRowTemplate dn sku (jsValStr quantity), acc.2)
    else acc

/-- `skuMap.forEach` emission of Add_button.js:190-201. -/
def legacyCombinedRowsHtml (m : List (String × LegacyEntry)) : String :=
  String.join (m.map (fun e => combinedRowTemplate e.2.productName e.1 (jsValStr e.2.quantity)))
def legacyLayoutA : String :=
"
           <html>
                    <head>
<style>
         .product-table tr \x7b
                margin-bottom: 10px;
                height: 30px;
            \x7d

        body \x7b
            font-family: Arial, sans-serif;
            line-height: 1.6;
        \x7d

        .maincontainer \x7b
            width: 100%;
            box-sizing: border-box;
            padding: 0 15px;
            margin: 20px auto;
        \x7d

        .TMheader-left \x7b
              width:70%;
              display: flex;
              font-size: 13px;
          \x7d

        .TMheader \x7b
            width:100%;
            display: flex;
            justify-content: space-between;
            margin-bottom: -25px;
        \x7d

        .TMheader-left img \x7b
            max-width: 150px;
        \x7d

        .TMheader-right \x7b
           width: 30%;
           font-size: 10px;
         \x7d

        .deliveryNote \x7b
         display: flex;
         margin-bottom: -30px;
         white-space: pre-line;
         flex-direction: row;
         justify-content: space-between;
         font-size: 13px;
         width: 100%;
        \x7d

        .deliveryNote-1, .deliveryNote-2, .deliveryNote-3 \x7b
            width: 33.3%;
        \x7d

        .orderProducts \x7b
            margin-top: 20px;
            border-top: 1px solid #000;
        \x7d

        .product-table \x7b
            text-align: left;
            width: 100%;
            margin-top: 20px;
            font-size: 14px;
        \x7d
        .product-table tbody tr td:first-child \x7b
            padding-right: 10px;
        \x7d
        .product-table tbody tr td:last-child \x7b
            text-align: right;
        \x7d
        .orderNote \x7b
          display: flex;
          justify-content: space-between;
          font-size: 14px;
        \x7d
         .footer \x7b
           position: relative;
           bottom: 0px;
           display: flex;
           flex-direction: column;
           align-items: center;
           font-size: 12px;
         \x7d
    </style>
</head>
<body>
    <div class=\"maincontainer\">
        <div class=\"TMheader\">
            <div class=\"TMheader-left\">
                <div class=\"imageLogo\">
                    <img src=\"https://c17.qbo.intuit.com/qbo17/ext/Image/show/249862794341519/1?14857441280001\" alt=\"Logo\" />
                </div>
                <div class=\"CompnayInfo\">
                    <div><b>Adelaide Bathroom & Kitchen Supplies</b></div>
                    <div>2/831 Lower North East Rd, Dernancourt</div>
                    <div>(08) 7006 5181</div>
                    <div>Sales@abksupplies.com.au</div>
                    <div>ABN 13 695 032 804</div>
                </div>
            </div>
            <div class=\"TMheader-right\">
        <div class=\"QuoteHeaderLeft\">
                                <div class=\"ContactSevice\">
                                    <div><b>Received In Good Order & Condition</b></div>
                                    <div><textarea class=\"form-control\" id=\"FormControlTextarea1\" rows=\"1\" style=\"height:30px;width:200px;\" placeholder=\"Name:\"></textarea></div>
                                    <div><textarea class=\"form-control\" id=\"FormControlTextarea1\" rows=\"1\" style=\"height:40;width:200px;\" placeholder=\"Sign:\"></textarea></div>
                                    <div><textarea class=\"form-control\" id=\"FormControlTextarea1\" rows=\"1\" style=\"height:30px;width:200px;\"placeholder=\"Date: __ / __ / ____\"></textarea></div>
                                </div>
                            </div>
            </div>
        </div>
        <h3 style=\"margin-bottom:0px\">Delivery Note</h3>
        <div class=\"deliveryNote\">
            <div class=\"deliveryNote-1\">
                <b>INVOICE TO</b>
                <p class=\"InvoiceInfo\">"

def legacyLayoutB : String :=
"</p>
            </div>
            <div class=\"deliveryNote-2\">
                <b>SHIP TO</b>
                <p class=\"ShipInfo\">"

def legacyLayoutC : String :=
"</p>
            </div>
            <div class=\"deliveryNote-3\">
                <b>INVOICE NO.:</b>
                <span class=\"InvoiceNumber\">"

def legacyLayoutD : String :=
"</span>
                <b>DATE:</b>
                <span class=\"InvoiceDate\">"

def legacyLayoutE : String :=
"</span>
            </div>
        </div>
        <hr>
        <div class=\"orderNote\">
            <div class=\"orderNote-1\"><b>ORDER NUMBER</b><br/>"

def legacyLayoutF : String :=
"</div>
            <div class=\"orderNote-2\"><b>JOB NAME<br/></b>"

def legacyLayoutG : String :=
"</div>
            <div class=\"orderNote-3\"><b>PHONE<br/></b>"

def legacyLayoutH : String :=
"</div>
        </div>
        <div class=\"orderProducts\">
            "

def legacyLayoutI : String :=
"
        </div>
        <hr/>
        <div class=\"input-group mb-3\" style=\"display:flex; justify-content: space-between;\">
  <span class=\"input-group-text\">Picked By : _______________.</span>
  <span class=\"input-group-text\">Checked By : _______________.</span>
</div>
    </div>
</body>
</html>
        "

/-- The legacy `printLayout` template literal (Add_button.js:222-371)
with its interpolated fields spliced in verbatim, in source order. -/
def legacyPrintLayout (billingAddress shippingAddress invoiceNumber invoiceDate
    orderNumber jobName phoneNumber productTable : String) : String :=
  legacyLayoutA ++ billingAddress ++ legacyLayoutB ++ shippingAddress ++
    legacyLayoutC ++ invoiceNumber ++ legacyLayoutD ++ invoiceDate ++
    legacyLayoutE ++ orderNumber ++ legacyLayoutF ++ jobName ++
    legacyLayoutG ++ phoneNumber ++ legacyLayoutH ++ productTable ++ legacyLayoutI

/-- `generateProductTable(combineQuantities)` of Add_button.js:140-377.
Line 151 calls `formElement.querySelectorAll` without a null check, so a
missing `.custom-form` element raises a `TypeError` before anything is
rendered; this is the `Except.error` case.  Otherwise the document
written into the opened window is returned. -/
def generateProductTableLegacy (doc : Container) (combineQuantities : Bool) :
    Except String String :=
  let billingAddress := jsOr doc.billingAddressValue ""
  let shippingAddress := jsOr doc.shippingAddressValue ""
  let invoiceNumber := jsOr (doc.referenceNumberText.map (fun t => jsTrim t)) ""
  let invoiceDate := doc.invoiceDateValue.getD ""
  match doc.customForm with
  | none =>
    Except.error "TypeError: Cannot read properties of null (reading querySelectorAll)"
  | some fields =>
    let orderNumber := findFormValue fields "ORDER NUMBER"
    let jobName := findFormValue fields "JOB NAME"
    let phoneNumber := findFormValue fields "Phone"
    let folded := doc.dgridRows.foldl (legacyRowStep combineQuantities) ("", [])
    let productTable :=
      if combineQuantities then folded.1 ++ legacyCombinedRowsHtml folded.2 else folded.1
    let wrapped :=
      if productTable ≠ "" then tableWrap productTable
      else "<p>No valid products found.</p>"
    Except.ok (legacyPrintLayout billingAddress shippingAddress invoiceNumber
      invoiceDate orderNumber jobName phoneNumber wrapped)

/-- One sample of the polling loop of `waitForData`
(add_button_new.js:55-82) at a given tick: `none` when the overlay
container `.trowser-view .body` is absent, `some none` when the
container exists but the selector matches nothing, and `some (some t)`
when the matched element has text content `t`. -/
def sampleSuccess : Option (Option String) → Bool
  | some (some t) => jsTrim t ≠ ""
  | _ => false

/-- The `setInterval` loop body of `waitForData`
(add_button_new.js:59-80), sampled at ticks `k = 1, 2, ...` spaced
`DATA_CHECK_INTERVAL` apart, so that the elapsed time at tick `k` is
`k * interval`.  The loop resolves `true` as soon as one sample finds
the element with non-empty trimmed text, and `false` at the first
sample at which the timeout has elapsed.  `fuel` bounds the recursion
and is chosen large enough that the timeout check is reached. -/
def waitForDataGo (obs : Nat → Option (Option String)) (timeout interval : Nat) :
    Nat → Nat → Bool
  | _, 0 => false
  | k, fuel + 1 =>
    if sampleSuccess (obs k) then true
    else if timeout ≤ k * interval then false
    else waitForDataGo obs timeout interval (k + 1) fuel

/-- `waitForData(selector, timeout)` of add_button_new.js:55-82, with
the environment abstracted as the per-tick sample `obs`. -/
def waitForData (obs : Nat → Option (Option String)) (timeout interval : Nat) : Bool :=
  waitForDataGo obs timeout interval 1 (timeout / interval + 1)

/-! ### Concrete inputs used to evaluate the claims -/

/-- A record whose billing address carries adversarial HTML, as could be
scraped from the source application. -/
def c1Record : ExtractionRecord :=
  ⟨"<script>alert(1)</script>", "N/A", "INV-1", "01/01/2025", "", "", "",
   [⟨"Tap", "", "A1", 2⟩]⟩

/-- A container whose `.custom-form` element is absent. -/
def c2NoFormContainer : Container :=
  ⟨some "12 Example St", some "12 Example St", some "INV-9", some "01/01/2025",
   none, []⟩

/-- A container with one product row that has a product name but no SKU
element at all. -/
def c3Container : Container :=
  ⟨some "N/A", some "N/A", some "INV-3", some "N/A", none,
   [⟨some "Widget", none, [], [some "2"]⟩]⟩

/-- A container with one product row whose quantity cell does not parse
(`parseInt` yields `NaN`, so the extracted quantity is 0). -/
def c4Container : Container :=
  ⟨none, none, none, none, none, [⟨some "Widget", none, [], [some "abc"]⟩]⟩

/-- A row whose quantity cell holds two numeric substrings, the first of
which does not start the text. -/
def c5Row : RowNode :=
  ⟨none, none, [], [some "of 12 121"]⟩

/-- An environment sample sequence whose signal oscillates every tick
and never holds across two consecutive samples. -/
def oscillatingObs : Nat → Option (Option String) :=
  fun k => if k % 2 = 1 then some (some "3") else none

/-- A legacy page with a custom form present but no product rows. -/
def c7LegacyContainer : Container :=
  ⟨some "Bill", some "Ship", some "INV-7", some "02/02/2025", some [], []⟩

/-- Two rows sharing the SKU `SKU-1`, the end-to-end example of the
specification. -/
def c8Items : List LineItem :=
  [⟨"Tap", "", "SKU-1", 2⟩, ⟨"Tap", "", "SKU-1", 3⟩]

/-- A record whose single row has no SKU, so that pick-slip mode
produces no table rows and the placeholder branch is taken. -/
def c9Record : ExtractionRecord :=
  ⟨"N/A", "N/A", "INV-2", "N/A", "", "", "", [⟨"Widget", "", "", 2⟩]⟩

/-- The document rendered for `c9Record` in pick-slip mode. -/
def c9Doc : String :=
  generatePrintLayout c9Record (productTableHtml c9Record.rows true)

/-!
The following string constants cut the 4960-character `c9Doc` into three
segments (`c9Doc = c9Seg1 ++ (c9Seg2 ++ c9Seg3)`), together with
24-character overlap windows at the two seams.  They exist only so that
substring absence can be checked segment by segment: a single
whole-document scan does not fit the proof checker's recursion budget.
`c9B1`/`c9Seg2`/`c9B3` are the three slices of `layoutB`.
-/



def c9Seg1 : String :=
"
<!DOCTYPE html>
<html>
<head>
    <meta charset=\"UTF-8\">
    <title>Invoice INV-2</title>
    <style>
        * \x7b box-sizing: border-box; \x7d
        
        body \x7b
            font-family: Arial, sans-serif;
            line-height: 1.6;
            margin: 0;
            padding: 0;
        \x7d

        .maincontainer \x7b
            width: 100%;
            padding: 20px;
            margin: 0 auto;
        \x7d

        .TMheader \x7b
            width: 100%;
            display: flex;
            justify-content: space-between;
            margin-bottom: 10px;
        \x7d

        .TMheader-left \x7b
            width: 70%;
            display: flex;
            font-size: 13px;
            gap: 20px;
        \x7d

        .TMheader-left img \x7b
            max-width: 150px;
            height: auto;
        \x7d

        .TMheader-right \x7b
            width: 30%;
            font-size: 10px;
        \x7d

        .deliveryNote \x7b
            display: flex;
            justify-content: space-between;
            margin-bottom: 10px;
            font-size: 13px;
            width: 100%;
        \x7d

        .deliveryNote p \x7b
            margin-bottom: 0;
        \x7d

        .deliveryNote > div \x7b
            width: 33.3%;
            white-space: pre-line;
        \x7d

        .orderProducts \x7b
            margin-top: 20px;
            border-top: 1px solid #000;
        \x7d

        .product-table \x7b
            text-align: left;
            width: 100%;
            margin-top: 20px;
            font-size: 14px;
            border-collapse: collapse;
        \x7d
        
        .product-table th \x7b
            padding: 8px;
            text-align: left;
   "


def c9Seg3 : String :=
"ws=\"1\" style=\"height:30px;width:200px;\" placeholder=\"Name:\"></textarea></div>
                    <div><textarea class=\"form-control\" rows=\"1\" style=\"height:40px;width:200px;\" placeholder=\"Sign:\"></textarea></div>
                    <div><textarea class=\"form-control\" rows=\"1\" style=\"height:30px;width:200px;\" placeholder=\"Date: __ / __ / ____\"></textarea></div>
                </div>
            </div>
        </div>
        
        <h3 style=\"margin-bottom:10px\">Delivery Note</h3>
        
        <div class=\"deliveryNote\">
            <div class=\"deliveryNote-1\">
                <b>INVOICE TO</b>
                <p class=\"InvoiceInfo\">N/A</p>
            </div>
            <div class=\"deliveryNote-2\">
                <b>SHIP TO</b>
                <p class=\"ShipInfo\">N/A</p>
            </div>
            <div class=\"deliveryNote-3\">
                <b>INVOICE NO.:</b>
                <span class=\"InvoiceNumber\">INV-2</span><br/>
                <b>DATE:</b>
                <span class=\"InvoiceDate\">N/A</span>
            </div>
        </div>
        
        <hr>
        
        <div class=\"orderNote\">
            <div class=\"orderNote-1\"><b>ORDER NUMBER</b><br/></div>
            <div class=\"orderNote-2\"><b>JOB NAME</b><br/></div>
            <div class=\"orderNote-3\"><b>PHONE</b><br/></div>
        </div>
        
        <div class=\"orderProducts\">
            <p>No valid products found.</p>
        </div>
        
        <hr/>
        
        <div class=\"input-group\">
            <span>Picked By: _______________</span>
            <span>Checked By: _______________</span>
        </div>
    </div>
</body>
</html>
        "

def c9Seg1a : String :=
"
<!DOCTYPE html>
<html>
<head>
    <meta charset=\"UTF-8\">
    <title>Invoice INV-2</title>
    <style>
        * \x7b box-sizing: border-box; \x7d
        
        body \x7b
            font-family: Arial, sans-serif;
            line-height: 1.6;
            margin: 0;
            padding: 0;
        \x7d

        .maincontainer \x7b
            width: 100%;
            padding: 20px;
            margin: 0 auto;
        \x7d

        .TMheader \x7b
            width: 100%;
            display: flex;
            justify-content: space-between;
            margin-bottom: 10px;
        \x7d

        .TMheader-left \x7b
            width: 70%;
            display: flex;
            font-size: 13px;
            gap: 20px;
        \x7d

        .TMheader-left img \x7b
            max-width: 150px;
            height: auto;
        \x7d

        .TMheader-right \x7b
            width: 30%;
            font-size: 10px;
        \x7d

        .deliveryNote \x7b
            display: flex;
            justify-content: space-between;
            margin-bottom: 10px;
            font-size: 13px;
            width: 100%;
        \x7d

        .deliveryNote p \x7b
            margin-bottom: 0;
        \x7d

        .deliveryNote > div \x7b
            width: 33.3%;
            white-space: pre-line;
        \x7d

        .orderProducts \x7b
            margin-top: 20px;
            border-top: 1px solid #000;
        \x7d

        .product-table \x7b
            text-align: left;
            width: 100%;
            margin-top: 20px;
            font-size: 14px;
            border-collapse: collapse;
        \x7d
        
        .product-table th \x7b
            padding: 8px;
         "

def c9Seg1s : String :=
"   text-align: left;
   "

def c9Seg2p : String :=
"     \x7d
        
        "

def c9Seg2r : String :=
".product-table td \x7b
            padding: 8px;
        \x7d
        
        .product-table tbody tr td:last-child \x7b
            text-align: right;
        \x7d

        .orderNote \x7b
            display: flex;
            justify-content: space-between;
            font-size: 14px;
            margin: 20px 0;
        \x7d

        .input-group \x7b
            display: flex;
            justify-content: space-between;
            margin-top: 20px;
            font-size: 12px;
        \x7d

        hr \x7b
            border: none;
            border-top: 1px solid #ccc;
            margin: 15px 0;
        \x7d

        @media print \x7b
            body \x7b margin: 0; \x7d
            .maincontainer \x7b padding: 15px; \x7d
        \x7d
    </style>
</head>
<body>
    <div class=\"maincontainer\">
        <div class=\"TMheader\">
            <div class=\"TMheader-left\">
                <div class=\"imageLogo\">
                    <img src=\"https://c17.qbo.intuit.com/qbo17/ext/Image/show/249862794341519/1?14857441280001\" alt=\"Logo\" />
                </div>
                <div class=\"CompanyInfo\">
                    <div><b>Adelaide Bathroom & Kitchen Supplies</b></div>
                    <div>2/831 Lower North East Rd, Dernancourt</div>
                    <div>(08) 7006 5181</div>
                    <div>Sales@abksupplies.com.au</div>
                    <div>ABN 13 695 032 804</div>
                </div>
            </div>
            <div class=\"TMheader-right\">
                <div class=\"ContactService\">
                    <div><b>Received In Good Order & Condition</b></div>
                    <div><textarea class=\"form-control\" ro"

def c9Seg2a : String :=
"     \x7d
        
        .product-table td \x7b
            padding: 8px;
        \x7d
        
        .product-table tbody tr td:last-child \x7b
            text-align: right;
        \x7d

        .orderNote \x7b
            display: flex;
            justify-content: space-between;
            font-size: 14px;
            margin: 20px 0;
        \x7d

        .input-group \x7b
            display: flex;
            justify-content: space-between;
            margin-top: 20px;
            font-size: 12px;
        \x7d

        hr \x7b
            border: none;
            border-top: 1px solid #ccc;
            margin: 15px 0;
        \x7d

        @media print \x7b
            body \x7b margin: 0; \x7d
            .maincontainer \x7b padding: 15px; \x7d
        \x7d
    </style>
</head>
<body>
    <div class=\"maincontainer\">
        <div class=\"TMheader\">
            <div class=\"TMheader-left\">
                <div class=\"imageLogo\">
                    <img src=\"https://c17.qbo.intuit.com/qbo17/ext/Image/show/249862794341519/1?14857441280001\" alt=\"Logo\" />
                </div>
                <div class=\"CompanyInfo\">
                    <div><b>Adelaide Bathroom & Kitchen Supplies</b></div>
                    <div>2/831 Lower North East Rd, Dernancourt</div>
                    <div>(08) 7006 5181</div>
                    <div>Sales@abksupplies.com.au</div>
                    <div>ABN 13 695 032 804</div>
                </div>
            </div>
            <div class=\"TMheader-right\">
                <div class=\"ContactService\">
                    <div><b>Received In Good Order & Condition</b></div>
                    <div><textarea"

def c9Seg2s : String :=
" class=\"form-control\" ro"

def c9Seg3p : String :=
"ws=\"1\" style=\"height:30p"

def c9Seg3r : String :=
"x;width:200px;\" placeholder=\"Name:\"></textarea></div>
                    <div><textarea class=\"form-control\" rows=\"1\" style=\"height:40px;width:200px;\" placeholder=\"Sign:\"></textarea></div>
                    <div><textarea class=\"form-control\" rows=\"1\" style=\"height:30px;width:200px;\" placeholder=\"Date: __ / __ / ____\"></textarea></div>
                </div>
            </div>
        </div>
        
        <h3 style=\"margin-bottom:10px\">Delivery Note</h3>
        
        <div class=\"deliveryNote\">
            <div class=\"deliveryNote-1\">
                <b>INVOICE TO</b>
                <p class=\"InvoiceInfo\">N/A</p>
            </div>
            <div class=\"deliveryNote-2\">
                <b>SHIP TO</b>
                <p class=\"ShipInfo\">N/A</p>
            </div>
            <div class=\"deliveryNote-3\">
                <b>INVOICE NO.:</b>
                <span class=\"InvoiceNumber\">INV-2</span><br/>
                <b>DATE:</b>
                <span class=\"InvoiceDate\">N/A</span>
            </div>
        </div>
        
        <hr>
        
        <div class=\"orderNote\">
            <div class=\"orderNote-1\"><b>ORDER NUMBER</b><br/></div>
            <div class=\"orderNote-2\"><b>JOB NAME</b><br/></div>
            <div class=\"orderNote-3\"><b>PHONE</b><br/></div>
        </div>
        
        <div class=\"orderProducts\">
            <p>No valid products found.</p>
        </div>
        
        <hr/>
        
        <div class=\"input-group\">
            <span>Picked By: _______________</span>
            <span>Checked By: _______________</span>
        </div>
    </div>
</body>
</html>
        "

/-- Three legacy rows sharing the SKU `SKU-1` with quantity texts "0",
"2" and "3": the legacy script stores `parseInt("0") || ''` as the
empty string, so its `+=` accumulation degenerates to string
concatenation. -/
def c8LegacyRowsA : List RowNode :=
  [⟨some "Tap", none, [some "SKU-1"], [some "0"]⟩,
   ⟨some "Tap", none, [some "SKU-1"], [some "2"]⟩,
   ⟨some "Tap", none, [some "SKU-1"], [some "3"]⟩]

/-- The same three legacy rows with the zero-quantity row moved last. -/
def c8LegacyRowsB : List RowNode :=
  [⟨some "Tap", none, [some "SKU-1"], [some "2"]⟩,
   ⟨some "Tap", none, [some "SKU-1"], [some "3"]⟩,
   ⟨some "Tap", none, [some "SKU-1"], [some "0"]⟩]

/-! ### General lemmas about the substring scanner -/

theorem listPrefixEq_iff (n h : List Char) : listPrefixEq n h = true ↔ n <+: h := by
  induction n generalizing h with
  | nil => simp [listPrefixEq]
  | cons a as ih =>
    cases h with
    | nil => simp [listPrefixEq]
    | cons b bs =>
      rw [listPrefixEq, Bool.and_eq_true, beq_iff_eq, ih, List.cons_prefix_cons]

theorem listContainsSub_iff (n h : List Char) :
    listContainsSub n h = true ↔ n <:+: h := by
  induction h with
  | nil => simp [listContainsSub, List.isEmpty_iff]
  | cons c rest ih =>
    rw [listContainsSub, Bool.or_eq_true, listPrefixEq_iff, ih, List.infix_cons_iff]

theorem listContainsSub_eq_false_iff (n h : List Char) :
    listContainsSub n h = false ↔ ¬ n <:+: h := by
  rw [← listContainsSub_iff, Bool.not_eq_true, Bool.eq_false_iff, ne_eq,
    Bool.not_eq_true]

theorem infix_extend_left {α : Type} (x : List α) {l r : List α} (h : l <:+: r) :
    l <:+: x ++ r := by
  obtain ⟨s, t, hst⟩ := h
  exact ⟨x ++ s, t, by rw [← hst]; simp [List.append_assoc]⟩

theorem infix_self_append {α : Type} (l t : List α) : l <:+: l ++ t :=
  ⟨[], t, by simp⟩

/-- An occurrence of `n` in `a ++ b` lies in `a`, lies in `b`, or crosses
the boundary, splitting `n` into a non-empty suffix-part of `a` and a
non-empty prefix-part of `b`. -/
theorem infix_append_cases {α : Type} {n a b : List α} (h : n <:+: a ++ b) :
    n <:+: a ∨ n <:+: b ∨
      ∃ n₁ n₂, n = n₁ ++ n₂ ∧ n₁ ≠ [] ∧ n₂ ≠ [] ∧ n₁ <:+ a ∧ n₂ <+: b := by
  obtain ⟨u, v, huv⟩ := h
  rcases List.append_eq_append_iff.mp huv with ⟨w, haw, hvw⟩ | ⟨w, huw, hbw⟩
  · exact Or.inl ⟨u, w, haw.symm⟩
  · rcases List.append_eq_append_iff.mp huw with ⟨x, hax, hnx⟩ | ⟨x, hux, hcx⟩
    · rcases eq_or_ne x [] with hx | hx
      · subst hx
        refine Or.inr (Or.inl ⟨[], v, ?_⟩)
        simp only [List.nil_append] at hnx
        rw [hbw, hnx]
        simp
      · rcases eq_or_ne w [] with hw | hw
        · subst hw
          refine Or.inl ⟨u, [], ?_⟩
          simp only [List.append_nil] at hnx
          rw [List.append_nil, hax, hnx]
        · refine Or.inr (Or.inr ⟨x, w, hnx, hx, hw, ⟨u, hax.symm⟩, ⟨v, hbw.symm⟩⟩)
    · refine Or.inr (Or.inl ⟨x, v, ?_⟩)
      rw [hbw, hcx]

/-- Absence of a needle from an append, checked piecewise: it is enough
that the needle occurs neither in the left part, nor in the right part,
nor in the window made of the last chunk `s` of the left part and the
first chunk `p` of the right part, provided both `s` and `p` are at
least one character shorter than the needle. -/
theorem listContainsSub_append_eq_false {n a₁ s p b₁ : List Char}
    (hns : n.length ≤ s.length + 1) (hnp : n.length ≤ p.length + 1)
    (hA : listContainsSub n (a₁ ++ s) = false)
    (hB : listContainsSub n (p ++ b₁) = false)
    (hW : listContainsSub n (s ++ p) = false) :
    listContainsSub n ((a₁ ++ s) ++ (p ++ b₁)) = false := by
  rw [listContainsSub_eq_false_iff] at hA hB hW ⊢
  intro h
  rcases infix_append_cases h with hin | hin | ⟨n₁, n₂, hn, h1, h2, hsuf, hpre⟩
  · exact hA hin
  · exact hB hin
  · have hlen : n.length = n₁.length + n₂.length := by rw [hn, List.length_append]
    have h2len : 1 ≤ n₂.length := by
      cases n₂ with
      | nil => exact absurd rfl h2
      | cons _ _ => simp
    have h1len : 1 ≤ n₁.length := by
      cases n₁ with
      | nil => exact absurd rfl h1
      | cons _ _ => simp
    have hs1 : n₁.length ≤ s.length := by omega
    have hp2 : n₂.length ≤ p.length := by omega
    have hsufs : n₁ <:+ s :=
      List.suffix_of_suffix_length_le hsuf (List.suffix_append a₁ s) hs1
    have hprep : n₂ <+: p :=
      List.prefix_of_prefix_length_le hpre (List.prefix_append p b₁) hp2
    obtain ⟨s', hs'⟩ := hsufs
    obtain ⟨p', hp'⟩ := hprep
    exact hW ⟨s', p', by rw [← hs', ← hp', hn]; simp [List.append_assoc]⟩

/-! ### Segment decomposition of the concrete pick-slip document -/

set_option maxRecDepth 8000 in
theorem c9_seg1_eq : (layoutA ++ "INV-2") ++ layoutBa = c9Seg1 := rfl

set_option maxRecDepth 8000 in
theorem c9_seg3_eq :
    (((((((((((((((layoutBc ++ "N/A") ++ layoutC) ++ "N/A") ++ layoutD) ++ "INV-2") ++
      layoutE) ++ "N/A") ++ layoutF) ++ "") ++ layoutG) ++ "") ++ layoutH) ++ "") ++
      layoutI) ++ "<p>No valid products found.</p>") ++ layoutJ = c9Seg3 := rfl

set_option maxRecDepth 8000 in
theorem c9_seg1_split : c9Seg1 = c9Seg1a ++ c9Seg1s := rfl

set_option maxRecDepth 8000 in
theorem c9_seg2_psplit : layoutBb = c9Seg2p ++ c9Seg2r := rfl

set_option maxRecDepth 8000 in
theorem c9_seg2_ssplit : layoutBb = c9Seg2a ++ c9Seg2s := rfl

set_option maxRecDepth 8000 in
theorem c9_seg3_psplit : c9Seg3 = c9Seg3p ++ c9Seg3r := rfl

theorem c9_seg1_merge (t : String) :
    layoutA ++ ("INV-2" ++ (layoutBa ++ t)) = c9Seg1 ++ t := by
  simp only [← String.append_assoc]
  rw [c9_seg1_eq]

theorem c9_seg3_merge :
    layoutBc ++ ("N/A" ++ (layoutC ++ ("N/A" ++ (layoutD ++ ("INV-2" ++ (layoutE ++
      ("N/A" ++ (layoutF ++ ("" ++ (layoutG ++ ("" ++ (layoutH ++ ("" ++ (layoutI ++
      ("<p>No valid products found.</p>" ++ layoutJ))))))))))))))) = c9Seg3 := by
  simp only [← String.append_assoc]
  exact c9_seg3_eq

theorem c9Doc_decomp : c9Doc = c9Seg1 ++ (layoutBb ++ c9Seg3) := by
  have h0 : c9Doc = layoutA ++ "INV-2" ++ layoutB ++ "N/A" ++ layoutC ++ "N/A" ++
      layoutD ++ "INV-2" ++ layoutE ++ "N/A" ++ layoutF ++ "" ++ layoutG ++ "" ++
      layoutH ++ "" ++ layoutI ++ "<p>No valid products found.</p>" ++ layoutJ := rfl
  rw [h0, show layoutB = layoutBa ++ layoutBb ++ layoutBc from rfl]
  simp only [String.append_assoc]
  rw [c9_seg3_merge, c9_seg1_merge]

/-- Substring absence from the whole concrete document follows from
absence in the three segments and in the two 48-character seam
windows. -/
theorem c9_needle_absent (n : List Char) (hlen : n.length ≤ 25)
    (h1 : listContainsSub n c9Seg1.data = false)
    (h2 : listContainsSub n layoutBb.data = false)
    (h3 : listContainsSub n c9Seg3.data = false)
    (w12 : listContainsSub n (c9Seg1s ++ c9Seg2p).data = false)
    (w23 : listContainsSub n (c9Seg2s ++ c9Seg3p).data = false) :
    listContainsSub n c9Doc.data = false := by
  have hs1 : c9Seg1s.data.length = 24 := rfl
  have hp2 : c9Seg2p.data.length = 24 := rfl
  have hs2 : c9Seg2s.data.length = 24 := rfl
  have hp3 : c9Seg3p.data.length = 24 := rfl
  have e1 : c9Seg1.data = c9Seg1a.data ++ c9Seg1s.data := by
    rw [c9_seg1_split, String.data_append]
  have e2p : layoutBb.data = c9Seg2p.data ++ c9Seg2r.data := by
    rw [c9_seg2_psplit, String.data_append]
  have e2s : layoutBb.data = c9Seg2a.data ++ c9Seg2s.data := by
    rw [c9_seg2_ssplit, String.data_append]
  have e3 : c9Seg3.data = c9Seg3p.data ++ c9Seg3r.data := by
    rw [c9_seg3_psplit, String.data_append]
  have inner : listContainsSub n (layoutBb.data ++ c9Seg3.data) = false := by
    rw [e2s, e3]
    apply listContainsSub_append_eq_false
    · rw [hs2]; exact hlen
    · rw [hp3]; exact hlen
    · rw [← e2s]; exact h2
    · rw [← e3]; exact h3
    · rw [← String.data_append]; exact w23
  have outer : listContainsSub n (c9Seg1.data ++ (layoutBb.data ++ c9Seg3.data)) = false := by
    have esplit : layoutBb.data ++ c9Seg3.data =
        c9Seg2p.data ++ (c9Seg2r.data ++ c9Seg3.data) := by
      rw [e2p, List.append_assoc]
    rw [e1, esplit]
    apply listContainsSub_append_eq_false
    · rw [hs1]; exact hlen
    · rw [hp2]; exact hlen
    · rw [← e1]; exact h1
    · rw [← esplit]; exact inner
    · rw [← String.data_append]; exact w12
  rw [c9Doc_decomp, String.data_append, String.data_append]
  exact outer

/-! ### Lemmas about parseInt -/

theorem not_ws_of_digit {c : Char} (h : c.isDigit = true) : c.isWhitespace = false := by
  cases hw : c.isWhitespace
  · rfl
  · exfalso
    have hc : c = ' ' ∨ c = '\t' ∨ c = '\x0d' ∨ c = '\n' := by
      simpa [Char.isWhitespace, or_assoc] using hw
    rcases hc with rfl | rfl | rfl | rfl <;> exact absurd h (by decide)

theorem ne_dash_of_digit {c : Char} (h : c.isDigit = true) : c ≠ '-' := by
  intro hc
  subst hc
  exact absurd h (by decide)

theorem ne_plus_of_digit {c : Char} (h : c.isDigit = true) : c ≠ '+' := by
  intro hc
  subst hc
  exact absurd h (by decide)

theorem takeWhile_digits (ds : List Char) (c : Char) (rest : List Char)
    (h2 : ∀ d ∈ ds, d.isDigit = true) (h3 : c.isDigit = false) :
    (ds ++ c :: rest).takeWhile (fun x => x.isDigit) = ds := by
  induction ds with
  | nil => simp [List.takeWhile_cons, h3]
  | cons d ds ih =>
    have hd : d.isDigit = true := h2 d (List.mem_cons_self d ds)
    simp only [List.cons_append, List.takeWhile_cons, hd, if_true]
    rw [ih (fun x hx => h2 x (List.mem_cons_of_mem d hx))]

/-! ### Lemmas about the pick-slip SKU map -/

theorem hasKey_iff (m : List (String × SkuEntry)) (s : String) :
    hasKey m s = true ↔ ∃ e ∈ m, e.1 = s := by
  simp [hasKey, List.find?_isSome]

theorem entryQty_eq_zero_of_not_hasKey {m : List (String × SkuEntry)} {s : String}
    (h : hasKey m s = false) : entryQty m s = 0 := by
  unfold hasKey at h
  unfold entryQty
  cases hf : m.find? (fun e => e.1 = s) with
  | none => rfl
  | some e => rw [hf] at h; simp at h

theorem find?_addQty (m : List (String × SkuEntry)) (s' s : String) (q : Int) :
    List.find? (fun e => e.1 = s) (addQty m s' q) =
      Option.map
        (fun e => if e.1 = s' then (e.1, ⟨e.2.productName, e.2.quantity + q⟩) else e)
        (List.find? (fun e => e.1 = s) m) := by
  unfold addQty
  rw [List.find?_map]
  have hpf : ((fun e : String × SkuEntry => decide (e.1 = s)) ∘ fun e =>
      if e.1 = s' then (e.1, ⟨e.2.productName, e.2.quantity + q⟩) else e) =
      fun e : String × SkuEntry => decide (e.1 = s) := by
    funext e
    by_cases he : e.1 = s' <;> simp [Function.comp, he]
  rw [hpf]

theorem entryQty_addQty_self {m : List (String × SkuEntry)} {s : String} (q : Int)
    (h : hasKey m s = true) : entryQty (addQty m s q) s = entryQty m s + q := by
  unfold entryQty
  rw [find?_addQty]
  cases hf : List.find? (fun e => e.1 = s) m with
  | none => unfold hasKey at h; rw [hf] at h; simp at h
  | some e =>
    have he : e.1 = s := by simpa using List.find?_some hf
    simp [he]

theorem entryQty_addQty_ne {s' s : String} (h : s' ≠ s)
    (m : List (String × SkuEntry)) (q : Int) :
    entryQty (addQty m s' q) s = entryQty m s := by
  unfold entryQty
  rw [find?_addQty]
  cases hf : List.find? (fun e => e.1 = s) m with
  | none => rfl
  | some e =>
    have he : e.1 = s := by simpa using List.find?_some hf
    have hne : ¬ e.1 = s' := by rw [he]; exact fun hh => h hh.symm
    simp [hne]

theorem entryQty_append_self {m : List (String × SkuEntry)} {s : String}
    (e : SkuEntry) (h : hasKey m s = false) :
    entryQty (m ++ [(s, e)]) s = e.quantity := by
  have hm : List.find? (fun x => x.1 = s) m = none := by
    unfold hasKey at h
    cases hf : List.find? (fun x => x.1 = s) m with
    | none => rfl
    | some x => rw [hf] at h; simp at h
  unfold entryQty
  rw [List.find?_append, hm]
  simp [List.find?_cons]

theorem entryQty_append_ne {s' s : String} (h : s' ≠ s)
    (m : List (String × SkuEntry)) (e : SkuEntry) :
    entryQty (m ++ [(s', e)]) s = entryQty m s := by
  unfold entryQty
  rw [List.find?_append]
  cases hf : List.find? (fun x => x.1 = s) m with
  | none => simp [List.find?_cons, h]
  | some x => simp

theorem find?_isSome_addQty (m : List (String × SkuEntry)) (s' s : String) (q : Int) :
    hasKey (addQty m s' q) s = hasKey m s := by
  unfold hasKey
  rw [find?_addQty]
  cases List.find? (fun e => e.1 = s) m <;> rfl

theorem hasKey_append_single (m : List (String × SkuEntry)) (s' s : String)
    (e : SkuEntry) :
    hasKey (m ++ [(s', e)]) s = (hasKey m s || decide (s' = s)) := by
  unfold hasKey
  rw [List.find?_append]
  cases List.find? (fun x => x.1 = s) m with
  | none => simp [List.find?_cons]; by_cases h : s' = s <;> simp [h]
  | some x => rfl

/-- Quantity accumulated for a non-empty key by the pick-slip row loop,
relative to an arbitrary starting map. -/
theorem entryQty_foldl (items : List LineItem) (m : List (String × SkuEntry))
    (s : String) (hs : s ≠ "") :
    entryQty (items.foldl skuMapStep m) s =
      entryQty m s + ((items.filter (fun r => r.sku = s)).map LineItem.quantity).sum := by
  induction items generalizing m with
  | nil => simp
  | cons r items ih =>
    rw [List.foldl_cons, ih]
    by_cases hr : r.sku = s
    · have hstep : entryQty (skuMapStep m r) s = entryQty m s + r.quantity := by
        unfold skuMapStep
        cases hk : hasKey m r.sku with
        | true =>
          rw [if_pos ⟨by rw [hr]; exact hs, rfl⟩]
          rw [hr] at hk ⊢
          exact entryQty_addQty_self r.quantity hk
        | false =>
          rw [if_neg (by simp [hk]), if_pos (by rw [hr]; exact hs)]
          rw [hr] at hk ⊢
          rw [entryQty_append_self _ hk, entryQty_eq_zero_of_not_hasKey hk]
          simp
      rw [hstep, List.filter_cons_of_pos (by simp [hr]), List.map_cons, List.sum_cons]
      omega
    · have hstep : entryQty (skuMapStep m r) s = entryQty m s := by
        unfold skuMapStep
        by_cases hsku : r.sku = ""
        · rw [if_neg (by simp [hsku]), if_neg (by simp [hsku])]
        · cases hk : hasKey m r.sku with
          | true =>
            rw [if_pos ⟨hsku, rfl⟩]
            exact entryQty_addQty_ne hr m r.quantity
          | false =>
            rw [if_neg (by simp [hk]), if_pos hsku]
            exact entryQty_append_ne hr m _
      rw [hstep, List.filter_cons_of_neg (by simp [hr])]

/-- Presence of a non-empty key in the accumulated pick-slip map. -/
theorem hasKey_foldl (items : List LineItem) (m : List (String × SkuEntry))
    (s : String) (hs : s ≠ "") :
    hasKey (items.foldl skuMapStep m) s =
      (hasKey m s || items.any (fun r => r.sku = s)) := by
  induction items generalizing m with
  | nil => simp
  | cons r items ih =>
    rw [List.foldl_cons, ih, List.any_cons]
    have hstep : hasKey (skuMapStep m r) s = (hasKey m s || decide (r.sku = s)) := by
      unfold skuMapStep
      by_cases hsku : r.sku = ""
      · rw [if_neg (by simp [hsku]), if_neg (by simp [hsku])]
        have : ¬ r.sku = s := by rw [hsku]; exact fun hh => hs hh.symm
        simp [this]
      · cases hk : hasKey m r.sku with
        | true =>
          rw [if_pos ⟨hsku, rfl⟩, find?_isSome_addQty]
          by_cases hr : r.sku = s
          · rw [← hr, hk]; simp
          · simp [hr]
        | false =>
          rw [if_neg (by simp [hk]), if_pos hsku, hasKey_append_single]
    rw [hstep, Bool.or_assoc]

theorem keys_addQty (m : List (String × SkuEntry)) (s' : String) (q : Int) :
    (addQty m s' q).map Prod.fst = m.map Prod.fst := by
  unfold addQty
  rw [List.map_map]
  apply List.map_congr_left
  intro e _
  by_cases he : e.1 = s' <;> simp [Function.comp, he]

/-- The keys of the accumulated pick-slip map are distinct: each SKU
owns exactly one output row. -/
theorem keys_nodup_foldl (items : List LineItem) (m : List (String × SkuEntry))
    (hm : (m.map Prod.fst).Nodup) :
    ((items.foldl skuMapStep m).map Prod.fst).Nodup := by
  induction items generalizing m with
  | nil => exact hm
  | cons r items ih =>
    rw [List.foldl_cons]
    apply ih
    unfold skuMapStep
    by_cases hsku : r.sku = ""
    · rw [if_neg (by simp [hsku]), if_neg (by simp [hsku])]
      exact hm
    · cases hk : hasKey m r.sku with
      | true =>
        rw [if_pos ⟨hsku, rfl⟩, keys_addQty]
        exact hm
      | false =>
        rw [if_neg (by simp [hk]), if_pos hsku]
        rw [List.map_append]
        refine List.Nodup.append hm (by simp) ?_
        intro a ha hb
        simp at hb
        subst hb
        have : hasKey m r.sku = true := by
          rcases List.mem_map.mp ha with ⟨e, he, hfst⟩
          exact (hasKey_iff _ _).mpr ⟨e, he, hfst⟩
        rw [this] at hk
        exact Bool.true_eq_false.mp hk

/-! ### Lemmas about concatenated row emission -/

theorem strFoldl_data (l : List String) (a : String) :
    (List.foldl (fun r s => r ++ s) a l).data =
      a.data ++ (List.foldl (fun r s => r ++ s) "" l).data := by
  induction l generalizing a with
  | nil => simp
  | cons x l ih =>
    rw [List.foldl_cons, List.foldl_cons, ih (a ++ x), ih ("" ++ x)]
    simp [String.data_append, List.append_assoc]

theorem join_cons_data (x : String) (l : List String) :
    (String.join (x :: l)).data = x.data ++ (String.join l).data := by
  unfold String.join
  rw [List.foldl_cons, strFoldl_data]
  simp [String.data_append]

theorem data_infix_join (f : LineItem → String) (rows : List LineItem) (r : LineItem)
    (h : r ∈ rows) : (f r).data <:+: (String.join (rows.map f)).data := by
  induction rows with
  | nil => cases h
  | cons x rows ih =>
    rw [List.map_cons, join_cons_data]
    rcases List.mem_cons.mp h with rfl | h
    · exact infix_self_append _ _
    · exact infix_extend_left _ (ih h)

/-! ### Claim theorems -/

/-- Claim C2 counterexample: the claim also covers the legacy
Add_button.js extraction (its cited lines 140-164), but on a container
whose `.custom-form` element is absent that extraction throws a
`TypeError` at `formElement.querySelectorAll` instead of returning a
record with sentinel values. -/
theorem c2_counterexample :
    (generateProductTableLegacy c2NoFormContainer false).isOk = false ∧
    (generateProductTableLegacy c2NoFormContainer true).isOk = false :=
  ⟨rfl, rfl⟩

/-- Claim C2 (amended): `extractData` of the v2.0/v2.4 scripts never
fails and resolves every missing field to its sentinel — "N/A" for the
billing address, shipping address, invoice number and invoice date, and
the empty string for order number, job name and phone number — for all
containers, including an absent overlay container and an absent
custom-form element; the legacy Add_button.js inline extraction instead
throws when the custom-form element is absent. -/
theorem c2_extract_sentinels (c : Container) (combine : Bool) :
    extractData none = ⟨"N/A", "N/A", "N/A", "N/A", "", "", "", []⟩ ∧
    (c.billingAddressValue = none → (extractData (some c)).billingAddress = "N/A") ∧
    (c.shippingAddressValue = none → (extractData (some c)).shippingAddress = "N/A") ∧
    (c.referenceNumberText = none → (extractData (some c)).invoiceNumber = "N/A") ∧
    (c.invoiceDateValue = none → (extractData (some c)).invoiceDate = "N/A") ∧
    (c.customForm = none → (extractData (some c)).orderNumber = "" ∧
      (extractData (some c)).jobName = "" ∧ (extractData (some c)).phoneNumber = "") ∧
    (c.customForm = none → (generateProductTableLegacy c combine).isOk = false) := by
  refine ⟨rfl, ?_, ?_, ?_, ?_, ?_, ?_⟩
  · intro h; simp [extractData, jsOr, h]
  · intro h; simp [extractData, jsOr, h]
  · intro h; simp [extractData, jsOr, h]
  · intro h; simp [extractData, jsOr, h]
  · intro h; refine ⟨?_, ?_, ?_⟩ <;> simp [extractData, h]
  · intro h; simp [generateProductTableLegacy, h, Except.isOk, Except.toBool]

/-- Claim C2 witness at a concrete container without a custom form. -/
theorem c2_witness :
    (extractData (some c2NoFormContainer)).orderNumber = "" ∧
    (generateProductTableLegacy c2NoFormContainer false).isOk = false :=
  ⟨((c2_extract_sentinels c2NoFormContainer false).2.2.2.2.2.1 rfl).1,
   (c2_extract_sentinels c2NoFormContainer false).2.2.2.2.2.2 rfl⟩

/-- Claim C3 counterexample: a retained row without a SKU is dropped
from the pick-slip aggregation of v2.0/v2.4 (the `else if (row.sku)`
guard), not kept under a key synthesized from its display name: the
aggregated map is empty. -/
theorem c3_counterexample :
    (extractData (some c3Container)).rows = [⟨"Widget", "", "", 2⟩] ∧
    skuMapOf (extractData (some c3Container)).rows = [] :=
  ⟨rfl, rfl⟩

/-- Claim C3 (amended): in combined (pick-slip) mode of v2.0/v2.4,
every extracted row whose SKU is empty is omitted from the aggregated
output — aggregation behaves exactly as if rows without a SKU had been
filtered away; no synthesized display-name key exists. -/
theorem c3_skuless_dropped (items : List LineItem) :
    skuMapOf items = skuMapOf (items.filter (fun r => r.sku ≠ "")) := by
  suffices h : ∀ m, items.foldl skuMapStep m =
      (items.filter (fun r => r.sku ≠ "")).foldl skuMapStep m from h []
  induction items with
  | nil => intro m; rfl
  | cons r items ih =>
    intro m
    by_cases hr : r.sku = ""
    · rw [List.foldl_cons, List.filter_cons_of_neg (by simp [hr])]
      have hstep : skuMapStep m r = m := by
        unfold skuMapStep
        rw [if_neg (by simp [hr]), if_neg (by simp [hr])]
      rw [hstep]
      exact ih m
    · rw [List.foldl_cons, List.filter_cons_of_pos (by simp [hr]), List.foldl_cons]
      exact ih _

/-- Claim C4 counterexample: a row whose quantity text does not parse is
extracted with quantity 0 and retained, although the claim requires
rows without a strictly positive quantity to be skipped. -/
theorem c4_counterexample :
    (extractData (some c4Container)).rows = [⟨"Widget", "", "", 0⟩] := rfl

/-- Claim C4 (amended): a row is included in the extracted line items
if and only if it has a non-empty productName, sku, or description; the
quantity plays no part in the decision — zero, negative or arbitrarily
large values are all retained, and unparseable quantity text is
recorded as 0. -/
theorem c4_row_validity (c : Container) :
    (∀ r ∈ (extractData (some c)).rows, hasMeaningfulData r = true) ∧
    (∀ row ∈ c.dgridRows, hasMeaningfulData (lineItemOfRow row) = true →
      lineItemOfRow row ∈ (extractData (some c)).rows) := by
  constructor
  · intro r hr
    simp only [extractData, List.mem_filterMap] at hr
    obtain ⟨row, _, hf⟩ := hr
    by_cases h : hasMeaningfulData (lineItemOfRow row) = true
    · rw [if_pos h] at hf
      cases hf
      exact h
    · rw [if_neg h] at hf
      cases hf
  · intro row hrow h
    simp only [extractData, List.mem_filterMap]
    exact ⟨row, hrow, by rw [if_pos h]⟩

/-- Claim C4 witness: the zero-quantity row of `c4Container` is
retained. -/
theorem c4_witness :
    lineItemOfRow ⟨some "Widget", none, [], [some "abc"]⟩ ∈
      (extractData (some c4Container)).rows :=
  (c4_row_validity c4Container).2 _ (by simp [c4Container]) (by decide)

/-- Claim C5 counterexample: on the quantity text "of 12 121", whose
first number token is 12, `parseInt` yields `NaN` because the text does
not begin with a digit, so `getQuantity` falls through to 0 instead of
returning the first token. -/
theorem c5_counterexample :
    parseIntJS "of 12 121" = none ∧ getQuantity c5Row = 0 :=
  ⟨rfl, rfl⟩

/-- Claim C5 (amended): quantity parsing takes the leading integer
prefix.  Whenever the text is a non-empty digit run followed by a
non-digit and arbitrary noise (as in "12 of 121"), the result is
exactly the value of that digit run — never a concatenation of all
digits; but when the text does not begin with a number, parsing fails
(`NaN`, modelled as `none`) and the quantity defaults to 0 rather than
to the first token. -/
theorem c5_first_number_prefix (ds : List Char) (c : Char) (rest : List Char)
    (h1 : ds ≠ []) (h2 : ∀ d ∈ ds, d.isDigit = true) (h3 : c.isDigit = false) :
    parseIntJS (String.mk (ds ++ c :: rest)) = some ((digitsVal ds : Nat) : Int) := by
  obtain ⟨d, ds', rfl⟩ := List.exists_cons_of_ne_nil h1
  have hd : d.isDigit = true := h2 d (List.mem_cons_self d ds')
  unfold parseIntJS
  show parseIntChars (((d :: ds') ++ c :: rest).dropWhile (fun x => x.isWhitespace)) = _
  have hdrop : ((d :: ds') ++ c :: rest).dropWhile (fun x => x.isWhitespace) =
      (d :: ds') ++ c :: rest := by
    rw [List.cons_append, List.dropWhile_cons]
    simp [not_ws_of_digit hd]
  rw [hdrop]
  unfold parseIntChars
  rw [List.cons_append, List.head?_cons]
  rw [if_neg (by simp [ne_dash_of_digit hd]), if_neg (by simp [ne_plus_of_digit hd])]
  unfold leadingNat leadingDigits
  rw [show d :: (ds' ++ c :: rest) = (d :: ds') ++ c :: rest from by simp,
    takeWhile_digits _ _ _ h2 h3]
  rw [if_neg (by simp)]
  rfl

/-- Claim C5 witness: "12 of 121" parses to 12. -/
theorem c5_witness :
    parseIntJS (String.mk (['1', '2'] ++ ' ' :: "of 121".data)) = some 12 := by
  have h := c5_first_number_prefix ['1', '2'] ' ' "of 121".data (by decide)
    (by decide) (by decide)
  have h2 : ((digitsVal ['1', '2'] : Nat) : Int) = 12 := by decide
  rw [h2] at h
  exact h

/-- Claim C6 counterexample: with a signal that is present at tick 1,
absent at tick 2, and oscillates forever — never equal and non-zero on
two consecutive samples — `waitForData` still reports success (at the
very first sample), rather than always timing out. -/
theorem c6_counterexample :
    waitForData oscillatingObs 10000 500 = true ∧
    sampleSuccess (oscillatingObs 1) = true ∧
    sampleSuccess (oscillatingObs 2) = false :=
  ⟨rfl, rfl, rfl⟩

/-- If the sample at tick `k + d` succeeds, every earlier tick from `k`
on fails without having reached the timeout, and enough fuel remains,
then the polling loop reports success. -/
theorem waitForDataGo_reaches (obs : Nat → Option (Option String))
    (timeout interval : Nat) :
    ∀ (d k fuel : Nat), d < fuel →
      sampleSuccess (obs (k + d)) = true →
      (∀ j, k ≤ j → j < k + d → sampleSuccess (obs j) = false) →
      (∀ j, k ≤ j → j < k + d → j * interval < timeout) →
      waitForDataGo obs timeout interval k fuel = true := by
  intro d
  induction d with
  | zero =>
    intro k fuel hfuel hsucc _ _
    cases fuel with
    | zero => omega
    | succ f =>
      rw [waitForDataGo]
      simp only [Nat.add_zero] at hsucc
      simp [hsucc]
  | succ d ih =>
    intro k fuel hfuel hsucc hfail htime
    cases fuel with
    | zero => omega
    | succ f =>
      rw [waitForDataGo]
      have hk : sampleSuccess (obs k) = false := hfail k (le_refl k) (by omega)
      have ht : k * interval < timeout := htime k (le_refl k) (by omega)
      rw [hk, if_neg (by simp), if_neg (by omega)]
      refine ih (k + 1) f (by omega) ?_ ?_ ?_
      · rw [show k + 1 + d = k + (d + 1) from by omega]
        exact hsucc
      · intro j h1 h2
        exact hfail j (by omega) (by omega)
      · intro j h1 h2
        exact htime j (by omega) (by omega)

/-- Claim C6 (amended): `waitForData` reports success as soon as any
single sample finds the element with non-empty trimmed text — the first
successful sample yields success at whatever tick it occurs, provided
polling has not timed out at an earlier tick — it keeps no previous
sample and requires no hold duration; and it reports failure when no
sample ever succeeds. -/
theorem c6_single_sample (obs : Nat → Option (Option String)) (timeout interval : Nat) :
    (∀ k, 1 ≤ k → sampleSuccess (obs k) = true →
      (∀ j, 1 ≤ j → j < k → sampleSuccess (obs j) = false) →
      (k - 1) * interval < timeout → 0 < interval →
      waitForData obs timeout interval = true) ∧
    ((∀ k, sampleSuccess (obs k) = false) → waitForData obs timeout interval = false) := by
  constructor
  · intro k hk1 hsucc hfail htime hint
    unfold waitForData
    have hd : k - 1 ≤ timeout / interval := by
      rw [Nat.le_div_iff_mul_le hint]
      exact le_of_lt htime
    refine waitForDataGo_reaches obs timeout interval (k - 1) 1 (timeout / interval + 1)
      (by omega) ?_ ?_ ?_
    · rw [show 1 + (k - 1) = k from by omega]
      exact hsucc
    · intro j h1 h2
      exact hfail j h1 (by omega)
    · intro j h1 h2
      calc j * interval ≤ (k - 1) * interval :=
            Nat.mul_le_mul_right interval (by omega)
        _ < timeout := htime
  · intro h
    unfold waitForData
    suffices haux : ∀ fuel k, waitForDataGo obs timeout interval k fuel = false from
      haux _ 1
    intro fuel
    induction fuel with
    | zero => intro k; rfl
    | succ fuel ih =>
      intro k
      rw [waitForDataGo]
      simp [h k, ih]

/-- Claim C6 witness: a signal whose first (and only) successful sample
is at tick 2 succeeds, and an always-absent signal times out. -/
theorem c6_witness :
    waitForData (fun k => if k = 2 then some (some "1") else none) 10000 500 = true ∧
    waitForData (fun _ => none) 10000 500 = false :=
  ⟨(c6_single_sample (fun k => if k = 2 then some (some "1") else none) 10000 500).1 2
      (by decide) (by decide)
      (fun j h1 h2 => by
        have hj : j = 1 := by omega
        subst hj
        rfl)
      (by decide) (by decide),
   (c6_single_sample (fun _ => none) 10000 500).2 (fun _ => rfl)⟩

/-- Claim C7 counterexample: the claim also covers the legacy
Add_button.js path (its cited lines 140-220), but that version has no
empty-result check: with zero product rows it opens a window and writes
the placeholder document instead of surfacing a notice and aborting. -/
theorem c7_counterexample :
    c7LegacyContainer.dgridRows = [] ∧
    (generateProductTableLegacy c7LegacyContainer false).isOk = true ∧
    (generateProductTableLegacy c7LegacyContainer true).isOk = true :=
  ⟨rfl, rfl, rfl⟩

/-- Claim C7 (amended): in v2.0/v2.4, whenever extraction produces zero
line items, `generateProductTable` surfaces the explicit alert notice
and aborts without opening or rendering a document, in either mode; the
legacy script instead opens a placeholder document. -/
theorem c7_empty_aborts (container : Option Container) (combineQuantities : Bool)
    (h : (extractData container).rows = []) :
    generateProductTable container combineQuantities =
      GPTResult.aborted
        "No product data found. Please ensure the invoice is fully loaded." := by
  simp [generateProductTable, h]

/-- Claim C7 witness: with the overlay container absent, extraction
yields zero rows and both modes abort with the alert. -/
theorem c7_witness :
    generateProductTable none false =
      GPTResult.aborted
        "No product data found. Please ensure the invoice is fully loaded." ∧
    generateProductTable none true =
      GPTResult.aborted
        "No product data found. Please ensure the invoice is fully loaded." :=
  ⟨c7_empty_aborts none false rfl, c7_empty_aborts none true rfl⟩

/-- Claim C8 counterexample: the claim also cites the legacy
Add_button.js aggregation (lines 155-201), where a row quantity is
`parseInt(quantityText, 10) || ''` — the empty string for a
zero/unparseable quantity — and `existing.quantity += quantity` then
concatenates strings: the SKU-1 rows with integer quantities 0, 2, 3
aggregate to the string "23", while the reordering 2, 3, 0 of the same
rows gives "5" — neither the exact integer sum nor invariant under
reordering. -/
theorem c8_counterexample :
    (c8LegacyRowsA.foldl (legacyRowStep true) ("", [])).2 =
      [("SKU-1", ⟨"Tap", JsVal.str "23"⟩)] ∧
    (c8LegacyRowsB.foldl (legacyRowStep true) ("", [])).2 =
      [("SKU-1", ⟨"Tap", JsVal.str "5"⟩)] ∧
    c8LegacyRowsB.Perm c8LegacyRowsA :=
  ⟨rfl, rfl, by decide⟩

/-- Claim C8 (amended): in the v2.0/v2.4 aggregation, where all
quantities are integers, aggregating rows that share the same non-empty
SKU yields a single entry (the keys of the SKU map are distinct) whose
quantity is the exact integer sum of their quantities, the key is
present exactly when some row carries it, and the summed quantity is
invariant under any reordering of the rows.  (In the legacy
Add_button.js aggregation, a zero or unparseable quantity is stored as
the empty string and `+=` degenerates to string concatenation, so
exactness and order-invariance fail there.) -/
theorem c8_aggregation (items : List LineItem) (s : String) (hs : s ≠ "") :
    entryQty (skuMapOf items) s =
      ((items.filter (fun r => r.sku = s)).map LineItem.quantity).sum ∧
    hasKey (skuMapOf items) s = items.any (fun r => r.sku = s) ∧
    ((skuMapOf items).map Prod.fst).Nodup ∧
    (∀ items', items.Perm items' →
      entryQty (skuMapOf items') s = entryQty (skuMapOf items) s) := by
  refine ⟨?_, ?_, ?_, ?_⟩
  · have h := entryQty_foldl items [] s hs
    simpa [skuMapOf, entryQty] using h
  · have h := hasKey_foldl items [] s hs
    simpa [skuMapOf, hasKey] using h
  · exact keys_nodup_foldl items [] (by simp)
  · intro items' hp
    have h1 := entryQty_foldl items [] s hs
    have h2 := entryQty_foldl items' [] s hs
    unfold skuMapOf
    rw [h1, h2]
    have hsum := List.Perm.sum_eq ((hp.filter (fun r => r.sku = s)).map LineItem.quantity)
    rw [hsum]

/-- Claim C8 witness: the two SKU-1 rows of the specification example
aggregate to quantity 5 in either order. -/
theorem c8_witness :
    entryQty (skuMapOf c8Items) "SKU-1" = 5 ∧
    entryQty (skuMapOf c8Items.reverse) "SKU-1" = 5 ∧
    skuMapOf c8Items = [("SKU-1", ⟨"Tap", 5⟩)] := by
  refine ⟨?_, ?_, rfl⟩
  · rw [(c8_aggregation c8Items "SKU-1" (by decide)).1]
    rfl
  · rw [(c8_aggregation c8Items "SKU-1" (by decide)).2.2.2 c8Items.reverse
      (List.reverse_perm c8Items).symm]
    rw [(c8_aggregation c8Items "SKU-1" (by decide)).1]
    rfl

/-- The detail row template is never the empty string: it always starts
with markup. -/
theorem detailRowTemplate_ne_empty (n s q : String) : detailRowTemplate n s q ≠ "" := by
  intro h
  have hdata : (detailRowTemplate n s q).data = [] := by rw [h]
  rw [detailRowTemplate, String.data_append, String.data_append, String.data_append,
    String.data_append, String.data_append, String.data_append] at hdata
  simp only [List.append_eq_nil] at hdata
  exact absurd hdata.1.1.1.1.1.1 (by decide)

/-- Claim C10: in detail (print) mode, a retained row whose extracted
quantity is 0 — including every row whose quantity text could not be
parsed, since `getQuantity` then returns 0 — is still rendered (its
fragment is non-empty and occurs in the emitted rows), and its quantity
cell holds the empty string rather than the digit 0. -/
theorem c10_zero_quantity_cell (rows : List LineItem) (r : LineItem)
    (hmem : r ∈ rows) (hdata : hasMeaningfulData r = true) (hq : r.quantity = 0) :
    detailRowHtml r = detailRowTemplate (displayName r) r.sku "" ∧
    detailRowHtml r ≠ "" ∧
    (detailRowHtml r).data <:+: (detailRowsHtml rows).data := by
  have hshow : displayName r ≠ "" ∨ r.sku ≠ "" := by
    simp only [hasMeaningfulData, Bool.or_eq_true, decide_eq_true_eq] at hdata
    unfold displayName
    rcases hdata with (h | h) | h
    · left; rw [if_pos h]; exact h
    · right; exact h
    · by_cases h1 : r.productName = ""
      · by_cases h2 : r.sku = ""
        · left; rw [if_neg (by simp [h1]), if_neg (by simp [h2])]; exact h
        · right; exact h2
      · left; rw [if_pos h1]; exact h1
  have hcond : (displayName r ≠ "" || r.sku ≠ "") = true := by
    rcases hshow with h | h <;> simp [h]
  have h1 : detailRowHtml r = detailRowTemplate (displayName r) r.sku "" := by
    unfold detailRowHtml
    rw [if_pos hcond, hq]
    rfl
  refine ⟨h1, ?_, ?_⟩
  · rw [h1]
    exact detailRowTemplate_ne_empty _ _ _
  · have h := data_infix_join detailRowHtml rows r hmem
    simpa [detailRowsHtml] using h

/-- Claim C10 witness: a concrete retained row with quantity 0 renders
with an empty quantity cell. -/
theorem c10_witness :
    detailRowHtml ⟨"Tap", "", "A1", 0⟩ =
      detailRowTemplate (displayName ⟨"Tap", "", "A1", 0⟩) "A1" "" :=
  (c10_zero_quantity_cell [⟨"Tap", "", "A1", 0⟩] ⟨"Tap", "", "A1", 0⟩ (by simp)
    (by decide) rfl).1

/-- Claim C1 counterexample: `generatePrintLayout` interpolates fields
verbatim, so a billing address containing a script tag appears raw in
the rendered document — it is not HTML-escaped. -/
theorem c1_counterexample :
    "<script>alert(1)</script>".data <:+:
      (generatePrintLayout c1Record (productTableHtml c1Record.rows false)).data := by
  simp only [generatePrintLayout, String.data_append, List.append_assoc]
  exact infix_extend_left _ (infix_extend_left _ (infix_extend_left _ (infix_self_append _ _)))

/-- Claim C1 (amended): no HTML escaping is performed anywhere: every
interpolated field of the record — billing address, shipping address,
invoice number, invoice date, order number, job name, phone number —
and the product table string appear verbatim (as raw substrings) in the
rendered document, whatever characters they contain. -/
theorem c1_raw_interpolation (data : ExtractionRecord) (productTable : String) :
    data.billingAddress.data <:+: (generatePrintLayout data productTable).data ∧
    data.shippingAddress.data <:+: (generatePrintLayout data productTable).data ∧
    data.invoiceNumber.data <:+: (generatePrintLayout data productTable).data ∧
    data.invoiceDate.data <:+: (generatePrintLayout data productTable).data ∧
    data.orderNumber.data <:+: (generatePrintLayout data productTable).data ∧
    data.jobName.data <:+: (generatePrintLayout data productTable).data ∧
    data.phoneNumber.data <:+: (generatePrintLayout data productTable).data ∧
    productTable.data <:+: (generatePrintLayout data productTable).data := by
  refine ⟨?_, ?_, ?_, ?_, ?_, ?_, ?_, ?_⟩ <;>
    simp only [generatePrintLayout, String.data_append, List.append_assoc]
  · exact infix_extend_left _ (infix_extend_left _ (infix_extend_left _ (infix_self_append _ _)))
  · exact infix_extend_left _ (infix_extend_left _ (infix_extend_left _ (infix_extend_left _ (infix_extend_left _ (infix_self_append _ _)))))
  · exact infix_extend_left _ (infix_self_append _ _)
  · exact infix_extend_left _ (infix_extend_left _ (infix_extend_left _ (infix_extend_left _ (infix_extend_left _ (infix_extend_left _ (infix_extend_left _ (infix_extend_left _ (infix_extend_left _ (infix_self_append _ _)))))))))
  · exact infix_extend_left _ (infix_extend_left _ (infix_extend_left _ (infix_extend_left _ (infix_extend_left _ (infix_extend_left _ (infix_extend_left _ (infix_extend_left _ (infix_extend_left _ (infix_extend_left _ (infix_extend_left _ (infix_self_append _ _)))))))))))
  · exact infix_extend_left _ (infix_extend_left _ (infix_extend_left _ (infix_extend_left _ (infix_extend_left _ (infix_extend_left _ (infix_extend_left _ (infix_extend_left _ (infix_extend_left _ (infix_extend_left _ (infix_extend_left _ (infix_extend_left _ (infix_extend_left _ (infix_self_append _ _)))))))))))))
  · exact infix_extend_left _ (infix_extend_left _ (infix_extend_left _ (infix_extend_left _ (infix_extend_left _ (infix_extend_left _ (infix_extend_left _ (infix_extend_left _ (infix_extend_left _ (infix_extend_left _ (infix_extend_left _ (infix_extend_left _ (infix_extend_left _ (infix_extend_left _ (infix_extend_left _ (infix_self_append _ _)))))))))))))))
  · exact infix_extend_left _ (infix_extend_left _ (infix_extend_left _ (infix_extend_left _ (infix_extend_left _ (infix_extend_left _ (infix_extend_left _ (infix_extend_left _ (infix_extend_left _ (infix_extend_left _ (infix_extend_left _ (infix_extend_left _ (infix_extend_left _ (infix_extend_left _ (infix_extend_left _ (infix_extend_left _ (infix_extend_left _ (infix_self_append _ _)))))))))))))))))

/-- Claim C9 (amended): when the item sequence produces no table rows,
the product-table slot of the rendered document is exactly the literal
placeholder paragraph "<p>No valid products found.</p>" — so no
`<table>` markup is emitted by the product table — and the rendered
document contains that placeholder verbatim.  (The wording of the
claim, "no products found", does not occur in the code; the emitted
literal is "No valid products found.".) -/
theorem c9_placeholder (data : ExtractionRecord) (combineQuantities : Bool)
    (h : tableBody data.rows combineQuantities = "") :
    productTableHtml data.rows combineQuantities = "<p>No valid products found.</p>" ∧
    "<p>No valid products found.</p>".data <:+:
      (generatePrintLayout data
        (productTableHtml data.rows combineQuantities)).data := by
  have hpt : productTableHtml data.rows combineQuantities =
      "<p>No valid products found.</p>" := by
    simp [productTableHtml, h]
  refine ⟨hpt, ?_⟩
  rw [hpt]
  simp only [generatePrintLayout, String.data_append, List.append_assoc]
  exact infix_extend_left _ (infix_extend_left _ (infix_extend_left _ (infix_extend_left _ (infix_extend_left _ (infix_extend_left _ (infix_extend_left _ (infix_extend_left _ (infix_extend_left _ (infix_extend_left _ (infix_extend_left _ (infix_extend_left _ (infix_extend_left _ (infix_extend_left _ (infix_extend_left _ (infix_extend_left _ (infix_extend_left _ (infix_self_append _ _)))))))))))))))))

/-- Claim C9 witness: the concrete SKU-less record renders the
placeholder in pick-slip mode. -/
theorem c9_witness :
    productTableHtml c9Record.rows true = "<p>No valid products found.</p>" :=
  (c9_placeholder c9Record true rfl).1

set_option maxRecDepth 8000 in
/-- Claim C9 counterexample: on a record whose single SKU-less row
produces no pick-slip table rows, the rendered document does NOT
contain the literal "no products found" required by the claim — the
code emits "No valid products found." instead — while it does contain
that actual literal and, consistently with the rest of the claim, no
"<table" markup. -/
theorem c9_counterexample :
    containsSubstring c9Doc "no products found" = false ∧
    containsSubstring c9Doc "No valid products found." = true ∧
    containsSubstring c9Doc "<table" = false := by
  refine ⟨?_, ?_, ?_⟩
  · exact c9_needle_absent _ (by decide) rfl rfl rfl rfl rfl
  · unfold containsSubstring
    rw [listContainsSub_iff]
    have h3 : listContainsSub "No valid products found.".data c9Seg3.data = true := rfl
    have hinf : "No valid products found.".data <:+: c9Seg3.data :=
      (listContainsSub_iff _ _).mp h3
    rw [c9Doc_decomp, String.data_append, String.data_append]
    exact infix_extend_left _ (infix_extend_left _ hinf)
  · exact c9_needle_absent _ (by decide) rfl rfl rfl rfl rfl
